import Mathlib

/-!
Shallow embedding of `src/apiMain.py` (FastAPI session/message store and
LLM relay).

Modelling conventions:
* Python `dict[str, ·]` maps (`sessions`, `messages`) become association
  lists (`dget` / `dset` model lookup and item assignment).
* Python dict entries that may be absent (the `status` / `endTime` keys of
  a session, the optional DTO fields) become `Option` fields; an absent
  key is `none`.
* `datetime.now().isoformat()` values are passed in as explicit `String`
  arguments (`now`, `aiNow`), as is the generated AI message id.
* The single upstream HTTP interaction in `send_message` is abstracted by
  an `LlmOutcome` argument: the call either raises `aiohttp.ClientError`
  (transport failure, non-2xx via `raise_for_status`, content-type
  mismatch), raises `json.JSONDecodeError` while parsing the body, or
  yields a parsed JSON body.
* Python subscripting `obj[key]` / `seq[idx]` on parsed JSON is modelled
  by `jsonGetField` / `jsonGetIndex`, returning the Python exception kind
  (`KeyError` / `IndexError` / `TypeError`) in the error case; string
  `sendTime` values are compared with Lean's lexicographic `String` order,
  matching Python string comparison; `sorted(..., reverse=True)` is a
  stable descending sort (CPython's Timsort is stable, and `reverse=True`
  does not reorder elements whose keys compare equal), realised here by
  the stable insertion sort `sessionView`.
* Python slice `l[a:b]` (with possibly negative bounds) is `pySlice`.
-/

/-- Parsed JSON values, the possible results of `await response.json()`. -/
inductive Json where
  | str (s : String)
  | num (n : Int)
  | bool (b : Bool)
  | null
  | arr (elems : List Json)
  | obj (fields : List (String × Json))

/-- The Python exception kinds that subscripting a parsed JSON value can
raise: `KeyError` (missing dict key, or integer-subscripting a dict),
`IndexError` (list index out of range), `TypeError` (subscripting a
non-subscriptable value, or a string/list with a string key). -/
inductive PyErr where
  | keyError (k : String)
  | indexError
  | typeError (m : String)

/-- The `str(e)` rendering of a Python exception, as interpolated by the
outer `except Exception as e` handler of the endpoints. -/
def pyStr : PyErr → String
  | .keyError k => "'" ++ k ++ "'"
  | .indexError => "list index out of range"
  | .typeError m => m

/-- Lookup in a Python string-keyed dict (association list). -/
def dget {α : Type} : List (String × α) → String → Option α
  | [], _ => none
  | (k, v) :: rest, key => if k = key then some v else dget rest key

/-- Python dict item assignment `d[key] = v`: replaces the value of an
existing key in place, otherwise appends the new entry. -/
def dset {α : Type} : List (String × α) → String → α → List (String × α)
  | [], key, v => [(key, v)]
  | (k, w) :: rest, key, v =>
      if k = key then (key, v) :: rest else (k, w) :: dset rest key v

/-- Python `j[k]` for a string key `k` on a parsed JSON value. -/
def jsonGetField : Json → String → Except PyErr Json
  | .obj fields, k =>
      match dget fields k with
      | some v => .ok v
      | none => .error (.keyError k)
  | .str _, _ => .error (.typeError "string indices must be integers")
  | .arr _, _ => .error (.typeError "list indices must be integers or slices, not str")
  | _, _ => .error (.typeError "object is not subscriptable")

/-- Python `j[i]` for a non-negative integer literal index `i` on a parsed
JSON value.  Indexing a dict with an integer raises `KeyError` (JSON
object keys are strings); indexing a string yields the one-character
substring. -/
def jsonGetIndex : Json → Nat → Except PyErr Json
  | .arr elems, i =>
      match elems.get? i with
      | some v => .ok v
      | none => .error .indexError
  | .str s, i =>
      match s.toList.get? i with
      | some c => .ok (.str (String.mk [c]))
      | none => .error .indexError
  | .obj _, i => .error (.keyError (toString i))
  | _, _ => .error (.typeError "object is not subscriptable")

/-- The extraction `llm_response['choices'][0]['message']['content']`
performed on the parsed upstream body (apiMain.py line 161). -/
def extractContent (body : Json) : Except PyErr Json := do
  let choices ← jsonGetField body "choices"
  let first ← jsonGetIndex choices 0
  let msg ← jsonGetField first "message"
  jsonGetField msg "content"

/-- Outcome of the upstream `aiohttp` POST in `send_message`. -/
inductive LlmOutcome where
  | clientError (e : String)
  | decodeError (e : String)
  | ok (body : Json)

/-- The value bound to `ai_content` by the inner `try/except` block of
`send_message` (apiMain.py lines 153-166), or the uncaught exception.
`aiohttp.ClientError` and `(KeyError, json.JSONDecodeError)` are caught
and turned into fallback strings; any other exception raised by the
extraction (`IndexError`, `TypeError`) propagates. -/
def relayContent : LlmOutcome → Except PyErr Json
  | .clientError e => .ok (.str ("抱歉，AI服务暂时不可用。错误信息: " ++ e))
  | .decodeError e => .ok (.str ("抱歉，AI响应解析错误。错误信息: " ++ e))
  | .ok body =>
      match extractContent body with
      | .ok v => .ok v
      | .error (.keyError k) =>
          .ok (.str ("抱歉，AI响应解析错误。错误信息: " ++ "'" ++ k ++ "'"))
      | .error e => .error e

/-- One entry of a session's message log (the dicts built at apiMain.py
lines 130-137 and 169-176). -/
structure Message where
  messageId : String
  sessionId : String
  messageType : Nat
  content : Json
  sendTime : String
  sender : String

/-- A message as returned by `query_messages`: every key except the
internal `sender` field (apiMain.py line 242). -/
structure MessageRecord where
  messageId : String
  sessionId : String
  messageType : Nat
  content : Json
  sendTime : String

/-- The dict comprehension `{k: v for k, v in msg.items() if k != "sender"}`. -/
def stripSender (m : Message) : MessageRecord :=
  { messageId := m.messageId, sessionId := m.sessionId,
    messageType := m.messageType, content := m.content,
    sendTime := m.sendTime }

/-- The `session_info` dict stored by `create_session` (apiMain.py lines
78-85); the `status` and `endTime` keys are absent (`none`) until
`end_session` assigns them. -/
structure SessionInfo where
  sessionId : String
  title : Option String
  description : Option String
  consultType : Option String
  healthInfoUrl : Option String
  createTime : String
  status : Option String
  endTime : Option String

/-- `CreateAiSessionDTO` (apiMain.py lines 20-25). -/
structure CreateAiSessionDTO where
  sessionId : String
  title : Option String
  description : Option String
  consultType : Option String
  healthInfoUrl : Option String

/-- `SendMessageDTO` (apiMain.py lines 27-38); `messageType` has passed
the pydantic validator, i.e. lies in {0,1,2,3,4}. -/
structure SendMessageDTO where
  sessionId : String
  messageId : String
  content : String
  messageType : Nat
  sendTime : Option String

/-- The module-level mutable state: the `sessions` and `messages` dicts
(apiMain.py lines 16-17). -/
structure Store where
  sessions : List (String × SessionInfo)
  messages : List (String × List Message)

/-- The `data` payload of a successful response, per endpoint. -/
inductive RespData where
  | create (sessionId createTime : String)
  | send (userMessageId : String) (aiMessage : Message)
  | page (total : Nat) (pageSize current : Int) (records : List MessageRecord)
  | ended (sessionId endTime : String)

/-- The uniform `api_response` envelope (apiMain.py lines 59-64) together
with the HTTP status code of the `JSONResponse`. -/
structure ApiResp where
  success : Bool
  message : String
  data : Option RespData
  statusCode : Nat

/-- Python `a or b` for an optional string `a`: `b` when `a` is `None` or
the (falsy) empty string. -/
def pyOrElse : Option String → String → String
  | some s, d => if s = "" then d else s
  | none, d => d

/-- Python slice `l[a:b]` with integer (possibly negative) bounds. -/
def pySlice {α : Type} (l : List α) (a b : Int) : List α :=
  let n : Int := l.length
  let lo : Nat := if a < 0 then (max (n + a) 0).toNat else (min a n).toNat
  let hi : Nat := if b < 0 then (max (n + b) 0).toNat else (min b n).toNat
  (l.take hi).drop lo

/-- The `user_message` dict built by `send_message` (apiMain.py lines
127-137): `sendTime` is `dto.sendTime or datetime.now().isoformat()`. -/
def mkUserMessage (dto : SendMessageDTO) (now : String) : Message :=
  { messageId := dto.messageId, sessionId := dto.sessionId,
    messageType := dto.messageType, content := .str dto.content,
    sendTime := pyOrElse dto.sendTime now, sender := "user" }

/-- The `ai_message` dict built by `send_message` (apiMain.py lines
169-176). -/
def mkAiMessage (sessionId aiMessageId aiNow : String) (content : Json) : Message :=
  { messageId := aiMessageId, sessionId := sessionId, messageType := 0,
    content := content, sendTime := aiNow, sender := "ai" }

/-- The `session_info` dict built by `create_session` (apiMain.py lines
78-85): no `status` or `endTime` key is present. -/
def mkSessionInfo (dto : CreateAiSessionDTO) (now : String) : SessionInfo :=
  { sessionId := dto.sessionId, title := dto.title,
    description := dto.description, consultType := dto.consultType,
    healthInfoUrl := dto.healthInfoUrl, createTime := now,
    status := none, endTime := none }

/-- POST `/api/ai/sessions` (apiMain.py lines 67-105). -/
def create_session (st : Store) (dto : CreateAiSessionDTO) (now : String) :
    ApiResp × Store :=
  if (dget st.sessions dto.sessionId).isSome then
    ({ success := false, message := "会话已存在", data := none,
       statusCode := 400 }, st)
  else
    let info := mkSessionInfo dto now
    ({ success := true, message := "会话创建成功",
       data := some (.create dto.sessionId now), statusCode := 201 },
     { sessions := dset st.sessions dto.sessionId info,
       messages := dset st.messages dto.sessionId [] })

/-- POST `/api/ai/sessions/{sessionId}/messages` (apiMain.py lines
108-195).  `now` is the receipt time used to default `sendTime`,
`aiMessageId` the generated `str(uuid.uuid4())[:8]`, `aiNow` the send
time stamped on the AI message, and `llm` the outcome of the upstream
call.  When `messages[dto.sessionId]` is missing the Python code raises
`KeyError`, caught by the outer `except Exception` handler (status 400);
when the extraction raises an exception other than `KeyError` or
`json.JSONDecodeError`, the same outer handler fires with the user
message already appended. -/
def send_message (st : Store) (sessionId : String) (dto : SendMessageDTO)
    (now aiMessageId aiNow : String) (llm : LlmOutcome) : ApiResp × Store :=
  if dto.sessionId ≠ sessionId then
    ({ success := false, message := "路径会话ID与请求体不一致", data := none,
       statusCode := 400 }, st)
  else if (dget st.sessions dto.sessionId).isSome = false then
    ({ success := false, message := "会话不存在", data := none,
       statusCode := 404 }, st)
  else
    match dget st.messages dto.sessionId with
    | none =>
        ({ success := false, message := "'" ++ dto.sessionId ++ "'",
           data := none, statusCode := 400 }, st)
    | some log =>
        let userMsg := mkUserMessage dto now
        let st1 : Store :=
          { st with messages := dset st.messages dto.sessionId (log ++ [userMsg]) }
        match relayContent llm with
        | .ok c =>
            let aiMsg := mkAiMessage dto.sessionId aiMessageId aiNow c
            ({ success := true, message := "消息处理成功",
               data := some (.send dto.messageId aiMsg), statusCode := 200 },
             { st1 with
                messages := dset st1.messages dto.sessionId (log ++ [userMsg] ++ [aiMsg]) })
        | .error e =>
            ({ success := false, message := pyStr e, data := none,
               statusCode := 400 }, st1)

/-- Stable insertion of `m` into a list already sorted by `sendTime`
descending: `m` is placed before the first element whose `sendTime` is
not greater than `m`'s. -/
def insertDesc (m : Message) : List Message → List Message
  | [] => [m]
  | x :: xs =>
      if x.sendTime ≤ m.sendTime then m :: x :: xs else x :: insertDesc m xs

/-- The view `sorted(messages[sessionId], key=lambda x: x["sendTime"],
reverse=True)` (apiMain.py lines 214-218): a stable sort by `sendTime`
descending.  CPython's sort is stable and `reverse=True` preserves the
original order of elements with equal keys, so it agrees with this
stable insertion sort. -/
def sessionView : List Message → List Message
  | [] => []
  | x :: xs => insertDesc x (sessionView xs)

/-- The `startMessageId` filter of `query_messages` (apiMain.py lines
221-228).  `if startMessageId:` is false for `None` and for the empty
string; otherwise the view is cut strictly after the first element whose
`messageId` equals `startMessageId`, and left whole when there is none. -/
def filterStart (view : List Message) : Option String → List Message
  | none => view
  | some sid =>
      if sid = "" then view
      else
        match view.findIdx? (fun m => m.messageId == sid) with
        | some i => view.drop (i + 1)
        | none => view

/-- GET `/api/ai/sessions/{sessionId}/messages` (apiMain.py lines
198-256).  Read-only: returns only the response.  `pageNum` and
`pageSize` are the raw query parameters (the GET route applies no
validator). -/
def query_messages (st : Store) (sessionId : String)
    (startMessageId : Option String) (pageNum pageSize : Int) : ApiResp :=
  match dget st.messages sessionId with
  | none =>
      { success := false, message := "会话不存在", data := none,
        statusCode := 404 }
  | some log =>
      let view := filterStart (sessionView log) startMessageId
      let total := view.length
      let start := (pageNum - 1) * pageSize
      let records := (pySlice view start (start + pageSize)).map stripSender
      { success := true, message := "查询成功",
        data := some (.page total pageSize pageNum records),
        statusCode := 200 }

/-- POST `/api/ai/sessions/{sessionId}/end` (apiMain.py lines 259-278):
assigns the `status` and `endTime` keys of the stored session dict. -/
def end_session (st : Store) (sessionId : String) (now : String) :
    ApiResp × Store :=
  match dget st.sessions sessionId with
  | none =>
      ({ success := false, message := "会话不存在", data := none,
         statusCode := 404 }, st)
  | some s =>
      let s2 : SessionInfo := { s with status := some "ended", endTime := some now }
      ({ success := true, message := "会话已结束",
         data := some (.ended sessionId now), statusCode := 200 },
       { st with sessions := dset st.sessions sessionId s2 })

/-- One inbound operation, applied to the shared store.  `query` leaves
the store untouched (`query_messages` is read-only). -/
inductive Step : Store → Store → Prop where
  | create (st : Store) (dto : CreateAiSessionDTO) (now : String) :
      Step st (create_session st dto now).2
  | send (st : Store) (sessionId : String) (dto : SendMessageDTO)
      (now aiMessageId aiNow : String) (llm : LlmOutcome) :
      Step st (send_message st sessionId dto now aiMessageId aiNow llm).2
  | query (st : Store) : Step st st
  | endSession (st : Store) (sessionId now : String) :
      Step st (end_session st sessionId now).2

/-- Stores reachable from the initial empty `sessions`/`messages` dicts
by any sequence of the four endpoint operations. -/
inductive Reachable : Store → Prop where
  | init : Reachable { sessions := [], messages := [] }
  | step {st st2 : Store} : Reachable st → Step st st2 → Reachable st2

/-- The session ids that own a `sessions` entry are exactly those that
own a `messages` log. -/
def keysAgree (st : Store) : Prop :=
  ∀ k : String, (dget st.sessions k).isSome ↔ (dget st.messages k).isSome

/-- Number of messages in a log carrying the given message id. -/
def countId (l : List Message) (i : String) : Nat :=
  (l.filter (fun m => m.messageId == i)).length

theorem dget_dset {α : Type} (m : List (String × α)) (k : String) (v : α)
    (k2 : String) :
    dget (dset m k v) k2 = if k2 = k then some v else dget m k2 := by
  induction m with
  | nil =>
      by_cases h : k2 = k
      · simp [dset, dget, h]
      · simp [dset, dget, h, Ne.symm h]
  | cons p rest ih =>
      obtain ⟨a, b⟩ := p
      by_cases hak : a = k
      · subst hak
        by_cases h : k2 = a
        · subst h; simp [dset, dget]
        · simp [dset, dget, h, Ne.symm h]
      · by_cases h : k2 = a
        · subst h
          simp [dset, dget, hak, Ne.symm hak]
        · simp [dset, dget, hak, Ne.symm h, ih]

theorem dget_dset_self {α : Type} (m : List (String × α)) (k : String) (v : α) :
    dget (dset m k v) k = some v := by
  simp [dget_dset]

theorem dget_dset_isSome {α : Type} (m : List (String × α)) (k : String)
    (v : α) (h : (dget m k).isSome) (k2 : String) :
    (dget (dset m k v) k2).isSome = (dget m k2).isSome := by
  rw [dget_dset]
  by_cases hk : k2 = k
  · subst hk; simp [h]
  · simp [hk]

theorem mem_insertDesc {m x : Message} {l : List Message}
    (h : x ∈ insertDesc m l) : x = m ∨ x ∈ l := by
  induction l with
  | nil => simpa [insertDesc] using h
  | cons y ys ih =>
      rw [insertDesc] at h
      by_cases hc : y.sendTime ≤ m.sendTime
      · rw [if_pos hc] at h
        simpa using h
      · rw [if_neg hc] at h
        rcases List.mem_cons.mp h with h1 | h2
        · exact Or.inr (List.mem_cons.mpr (Or.inl h1))
        · rcases ih h2 with h3 | h4
          · exact Or.inl h3
          · exact Or.inr (List.mem_cons.mpr (Or.inr h4))

theorem pairwise_insertDesc {m : Message} {l : List Message}
    (h : l.Pairwise (fun a b => b.sendTime ≤ a.sendTime)) :
    (insertDesc m l).Pairwise (fun a b => b.sendTime ≤ a.sendTime) := by
  induction l with
  | nil => simp [insertDesc]
  | cons y ys ih =>
      rw [List.pairwise_cons] at h
      obtain ⟨hy, hys⟩ := h
      rw [insertDesc]
      by_cases hc : y.sendTime ≤ m.sendTime
      · rw [if_pos hc]
        refine List.pairwise_cons.mpr ⟨?_, List.pairwise_cons.mpr ⟨hy, hys⟩⟩
        intro z hz
        rcases List.mem_cons.mp hz with h1 | h2
        · subst h1; exact hc
        · exact le_trans (hy z h2) hc
      · rw [if_neg hc]
        refine List.pairwise_cons.mpr ⟨?_, ih hys⟩
        intro z hz
        rcases mem_insertDesc hz with h1 | h2
        · subst h1; exact le_of_not_le hc
        · exact hy z h2

theorem pairwise_sessionView (l : List Message) :
    (sessionView l).Pairwise (fun a b => b.sendTime ≤ a.sendTime) := by
  induction l with
  | nil => simp [sessionView]
  | cons x xs ih => exact pairwise_insertDesc ih

theorem filter_insertDesc (m : Message) (l : List Message) (t : String) :
    (insertDesc m l).filter (fun x => x.sendTime == t)
      = if m.sendTime = t then m :: l.filter (fun x => x.sendTime == t)
        else l.filter (fun x => x.sendTime == t) := by
  induction l with
  | nil =>
      by_cases h : m.sendTime = t <;>
        simp [insertDesc, List.filter_cons, h, beq_iff_eq]
  | cons y ys ih =>
      rw [insertDesc]
      by_cases hc : y.sendTime ≤ m.sendTime
      · rw [if_pos hc]
        by_cases h : m.sendTime = t <;>
          simp [List.filter_cons, h, beq_iff_eq]
      · rw [if_neg hc]
        by_cases h : m.sendTime = t
        · have hy : ¬ y.sendTime = t := by
            intro hyt
            exact hc (by rw [hyt, h])
          simp [List.filter_cons, h, hy, ih, beq_iff_eq]
        · by_cases hy : y.sendTime = t <;>
            simp [List.filter_cons, h, hy, ih, beq_iff_eq]

theorem filter_sessionView (l : List Message) (t : String) :
    (sessionView l).filter (fun x => x.sendTime == t)
      = l.filter (fun x => x.sendTime == t) := by
  induction l with
  | nil => simp [sessionView]
  | cons x xs ih =>
      rw [sessionView, filter_insertDesc]
      by_cases h : x.sendTime = t <;>
        simp [List.filter_cons, h, ih, beq_iff_eq]

theorem pySlice_of_nonneg {α : Type} (l : List α) (a s : Int)
    (ha : 0 ≤ a) (hs : 0 ≤ s) :
    pySlice l a (a + s) = (l.drop a.toNat).take s.toNat := by
  unfold pySlice
  have hn : ¬ a < 0 := not_lt.mpr ha
  have hm : ¬ a + s < 0 := by omega
  simp only [hn, hm, if_false]
  rw [List.drop_take]
  rcases le_or_lt (l.length : Int) a with hcase | hcase
  · have h1 : (min a (l.length : Int)).toNat = l.length := by omega
    have h2 : l.length ≤ a.toNat := by omega
    rw [h1, List.drop_length, List.drop_eq_nil_of_le h2]
    simp
  · have h1 : (min a (l.length : Int)).toNat = a.toNat := by omega
    rw [h1, List.take_eq_take]
    have hld : (l.drop a.toNat).length = l.length - a.toNat := List.length_drop _ _
    rw [hld]
    omega

theorem send_message_sessions (st : Store) (sid : String) (dto : SendMessageDTO)
    (now aid ainow : String) (llm : LlmOutcome) :
    (send_message st sid dto now aid ainow llm).2.sessions = st.sessions := by
  unfold send_message
  by_cases h1 : dto.sessionId ≠ sid
  · simp [h1]
  · rw [if_neg h1]
    by_cases h2 : (dget st.sessions dto.sessionId).isSome = false
    · simp [h2]
    · rw [if_neg h2]
      cases hm : dget st.messages dto.sessionId with
      | none => simp
      | some log =>
          cases hr : relayContent llm with
          | ok c => simp [hr]
          | error e => simp [hr]

theorem send_message_messages_isSome (st : Store) (sid : String)
    (dto : SendMessageDTO) (now aid ainow : String) (llm : LlmOutcome)
    (k : String) :
    (dget (send_message st sid dto now aid ainow llm).2.messages k).isSome
      = (dget st.messages k).isSome := by
  unfold send_message
  by_cases h1 : dto.sessionId ≠ sid
  · simp [h1]
  · rw [if_neg h1]
    by_cases h2 : (dget st.sessions dto.sessionId).isSome = false
    · simp [h2]
    · rw [if_neg h2]
      cases hm : dget st.messages dto.sessionId with
      | none => simp
      | some log =>
          have hsome : (dget st.messages dto.sessionId).isSome := by simp [hm]
          cases hr : relayContent llm with
          | ok c =>
              simp only [hr]
              rw [dget_dset_isSome, dget_dset_isSome]
              · exact hsome
              · rw [dget_dset_self]; rfl
          | error e =>
              simp only [hr]
              exact dget_dset_isSome _ _ _ hsome k

theorem end_session_messages (st : Store) (sid now : String) :
    (end_session st sid now).2.messages = st.messages := by
  unfold end_session
  cases hm : dget st.sessions sid <;> simp

theorem end_session_sessions_isSome (st : Store) (sid now k : String) :
    (dget (end_session st sid now).2.sessions k).isSome
      = (dget st.sessions k).isSome := by
  unfold end_session
  cases hm : dget st.sessions sid with
  | none => simp
  | some s =>
      have hsome : (dget st.sessions sid).isSome := by simp [hm]
      simp only []
      exact dget_dset_isSome _ _ _ hsome k

theorem create_session_of_present (st : Store) (dto : CreateAiSessionDTO)
    (now : String) (h : (dget st.sessions dto.sessionId).isSome) :
    create_session st dto now
      = ({ success := false, message := "会话已存在", data := none,
           statusCode := 400 }, st) := by
  unfold create_session
  rw [if_pos h]

theorem create_session_of_absent (st : Store) (dto : CreateAiSessionDTO)
    (now : String) (h : dget st.sessions dto.sessionId = none) :
    create_session st dto now
      = ({ success := true, message := "会话创建成功",
           data := some (.create dto.sessionId now), statusCode := 201 },
         { sessions := dset st.sessions dto.sessionId (mkSessionInfo dto now),
           messages := dset st.messages dto.sessionId [] }) := by
  unfold create_session
  rw [if_neg (by simp [h])]

theorem end_session_of_present (st : Store) (sid now : String)
    (s : SessionInfo) (h : dget st.sessions sid = some s) :
    end_session st sid now
      = ({ success := true, message := "会话已结束",
           data := some (.ended sid now), statusCode := 200 },
         { st with sessions := dset st.sessions sid ({ s with status := some "ended", endTime := some now }) }) := by
  unfold end_session
  rw [h]

theorem end_session_of_absent (st : Store) (sid now : String)
    (h : dget st.sessions sid = none) :
    end_session st sid now
      = ({ success := false, message := "会话不存在", data := none,
           statusCode := 404 }, st) := by
  unfold end_session
  rw [h]

theorem send_message_of_ok (st : Store) (sid : String) (dto : SendMessageDTO)
    (now aid ainow : String) (llm : LlmOutcome) (s : SessionInfo)
    (log : List Message) (c : Json)
    (hid : dto.sessionId = sid) (hs : dget st.sessions sid = some s)
    (hm : dget st.messages sid = some log) (hr : relayContent llm = .ok c) :
    send_message st sid dto now aid ainow llm
      = ({ success := true, message := "消息处理成功",
           data := some (.send dto.messageId (mkAiMessage sid aid ainow c)),
           statusCode := 200 },
         { st with messages := dset (dset st.messages sid (log ++ [mkUserMessage dto now])) sid (log ++ [mkUserMessage dto now] ++ [mkAiMessage sid aid ainow c]) }) := by
  subst hid
  unfold send_message
  rw [if_neg (fun hne => hne rfl)]
  rw [if_neg (by simp [hs])]
  simp only [hm, hr]

theorem send_message_of_error (st : Store) (sid : String) (dto : SendMessageDTO)
    (now aid ainow : String) (llm : LlmOutcome) (s : SessionInfo)
    (log : List Message) (e : PyErr)
    (hid : dto.sessionId = sid) (hs : dget st.sessions sid = some s)
    (hm : dget st.messages sid = some log) (hr : relayContent llm = .error e) :
    send_message st sid dto now aid ainow llm
      = ({ success := false, message := pyStr e, data := none,
           statusCode := 400 },
         { st with messages := dset st.messages sid (log ++ [mkUserMessage dto now]) }) := by
  subst hid
  unfold send_message
  rw [if_neg (fun hne => hne rfl)]
  rw [if_neg (by simp [hs])]
  simp only [hm, hr]

theorem countId_append (l1 l2 : List Message) (i : String) :
    countId (l1 ++ l2) i = countId l1 i + countId l2 i := by
  simp [countId, List.filter_append]

theorem countId_cons_self (i : String) (m : Message) (tail : List Message)
    (h : m.messageId = i) :
    countId (m :: tail) i = countId tail i + 1 := by
  simp [countId, List.filter_cons, h]

/-- Sample create DTO used by concrete witnesses. -/
def sampleCreateDto : CreateAiSessionDTO := ⟨"s1", some "t", none, none, none⟩

/-- Sample stored session used by concrete witnesses. -/
def sampleSession : SessionInfo := mkSessionInfo sampleCreateDto "T0"

/-- Sample send DTO used by concrete witnesses. -/
def sampleSendDto : SendMessageDTO := ⟨"s1", "m1", "hello", 0, some "t1"⟩

/-- C10: when the session id in the URL path differs from the `sessionId`
field of the request body, `send_message` returns the 400 mismatch
envelope and the store is returned unchanged.  The right-hand side is a
constant not mentioning the store contents or the upstream outcome, so
the failure happens before any existence check, append or upstream
call. -/
theorem claim_C10_path_mismatch (st : Store) (sid : String)
    (dto : SendMessageDTO) (now aid ainow : String) (llm : LlmOutcome)
    (h : dto.sessionId ≠ sid) :
    send_message st sid dto now aid ainow llm
      = ({ success := false, message := "路径会话ID与请求体不一致", data := none,
           statusCode := 400 }, st) := by
  unfold send_message
  rw [if_pos h]

/-- C10 witness: a concrete mismatching request against the empty store. -/
theorem claim_C10_witness :
    sampleSendDto.sessionId ≠ "s2"
    ∧ send_message ⟨[], []⟩ "s2" sampleSendDto "T1" "ai1" "T2" (.clientError "down")
        = ({ success := false, message := "路径会话ID与请求体不一致", data := none,
             statusCode := 400 }, ⟨[], []⟩) :=
  ⟨by decide,
   claim_C10_path_mismatch ⟨[], []⟩ "s2" sampleSendDto "T1" "ai1" "T2"
     (.clientError "down") (by decide)⟩

/-- C7: when the path and body ids agree but the session id is absent
from the `sessions` dict, `send_message` returns the 404 NotFound
envelope and the store is returned unchanged; the right-hand side does
not mention the upstream outcome `llm`, so no upstream call is made and
nothing is appended. -/
theorem claim_C7_send_not_found (st : Store) (sid : String)
    (dto : SendMessageDTO) (now aid ainow : String) (llm : LlmOutcome)
    (hid : dto.sessionId = sid) (h : dget st.sessions sid = none) :
    send_message st sid dto now aid ainow llm
      = ({ success := false, message := "会话不存在", data := none,
           statusCode := 404 }, st) := by
  subst hid
  unfold send_message
  rw [if_neg (fun hne => hne rfl)]
  rw [if_pos (by simp [h])]

/-- C7 witness: a concrete send against the empty store. -/
theorem claim_C7_witness :
    sampleSendDto.sessionId = "s1"
    ∧ dget (⟨[], []⟩ : Store).sessions "s1" = none
    ∧ send_message ⟨[], []⟩ "s1" sampleSendDto "T1" "ai1" "T2" (.decodeError "bad json")
        = ({ success := false, message := "会话不存在", data := none,
             statusCode := 404 }, ⟨[], []⟩) :=
  ⟨rfl, rfl,
   claim_C7_send_not_found ⟨[], []⟩ "s1" sampleSendDto "T1" "ai1" "T2"
     (.decodeError "bad json") rfl rfl⟩

/-- C6: creating a session whose id is already a key of `sessions` yields
the 400 AlreadyExists envelope and returns the store unchanged (so the
original session's metadata and its log are untouched); creating a
session with an absent id inserts the new session info and an empty log
under that id. -/
theorem claim_C6_create_session (st : Store) (dto : CreateAiSessionDTO)
    (now : String) :
    (∀ s : SessionInfo, dget st.sessions dto.sessionId = some s →
        create_session st dto now
          = ({ success := false, message := "会话已存在", data := none,
               statusCode := 400 }, st))
    ∧ (dget st.sessions dto.sessionId = none →
        create_session st dto now
          = ({ success := true, message := "会话创建成功",
               data := some (.create dto.sessionId now), statusCode := 201 },
             { sessions := dset st.sessions dto.sessionId (mkSessionInfo dto now),
               messages := dset st.messages dto.sessionId [] })
        ∧ dget (create_session st dto now).2.sessions dto.sessionId
            = some (mkSessionInfo dto now)
        ∧ dget (create_session st dto now).2.messages dto.sessionId = some []) := by
  constructor
  · intro s hs
    exact create_session_of_present _ _ _ (by simp [hs])
  · intro h
    refine ⟨create_session_of_absent _ _ _ h, ?_, ?_⟩
    · rw [create_session_of_absent _ _ _ h]
      exact dget_dset_self _ _ _
    · rw [create_session_of_absent _ _ _ h]
      exact dget_dset_self _ _ _

/-- C6 witness: duplicate create against a store holding `s1`, and a
fresh create against the empty store. -/
theorem claim_C6_witness :
    dget (⟨[("s1", sampleSession)], [("s1", [])]⟩ : Store).sessions "s1"
      = some sampleSession
    ∧ create_session ⟨[("s1", sampleSession)], [("s1", [])]⟩ sampleCreateDto "T3"
        = ({ success := false, message := "会话已存在", data := none,
             statusCode := 400 }, ⟨[("s1", sampleSession)], [("s1", [])]⟩)
    ∧ dget (⟨[], []⟩ : Store).sessions "s1" = none
    ∧ create_session ⟨[], []⟩ sampleCreateDto "T3"
        = ({ success := true, message := "会话创建成功",
             data := some (.create "s1" "T3"), statusCode := 201 },
           { sessions := dset [] "s1" (mkSessionInfo sampleCreateDto "T3"),
             messages := dset [] "s1" [] }) :=
  ⟨rfl,
   (claim_C6_create_session ⟨[("s1", sampleSession)], [("s1", [])]⟩
      sampleCreateDto "T3").1 sampleSession rfl,
   rfl,
   ((claim_C6_create_session ⟨[], []⟩ sampleCreateDto "T3").2 rfl).1⟩

/-- C8: a created session stores no status mark (`status = none`, the
dict has no `status` key, which is the representation of Open) and no
`endTime`; `end_session` on a present id succeeds and stores
`status = "ended"` with `endTime` stamped; and no operation ever moves a
session's status away from `"ended"` — the Open-to-Ended transition
happens once and never reverts. -/
theorem claim_C8_status_lifecycle :
    (∀ (st : Store) (dto : CreateAiSessionDTO) (now : String),
        dget st.sessions dto.sessionId = none →
        dget (create_session st dto now).2.sessions dto.sessionId
          = some (mkSessionInfo dto now)
        ∧ (mkSessionInfo dto now).status = none
        ∧ (mkSessionInfo dto now).endTime = none)
    ∧ (∀ (st : Store) (sid now : String) (s : SessionInfo),
        dget st.sessions sid = some s →
        (end_session st sid now).1.success = true
        ∧ dget (end_session st sid now).2.sessions sid
            = some ({ s with status := some "ended", endTime := some now }))
    ∧ (∀ (st st2 : Store), Step st st2 →
        ∀ (id : String) (s : SessionInfo),
          dget st.sessions id = some s → s.status = some "ended" →
          ∃ s2 : SessionInfo,
            dget st2.sessions id = some s2 ∧ s2.status = some "ended") := by
  refine ⟨?_, ?_, ?_⟩
  · intro st dto now h
    rw [create_session_of_absent _ _ _ h]
    exact ⟨dget_dset_self _ _ _, rfl, rfl⟩
  · intro st sid now s hs
    rw [end_session_of_present _ _ _ _ hs]
    exact ⟨rfl, dget_dset_self _ _ _⟩
  · intro st st2 hstep id s hs hended
    cases hstep with
    | create dto now =>
        by_cases hp : (dget st.sessions dto.sessionId).isSome
        · rw [create_session_of_present _ _ _ hp]
          exact ⟨s, hs, hended⟩
        · have habs : dget st.sessions dto.sessionId = none :=
            Option.not_isSome_iff_eq_none.mp hp
          have hne : id ≠ dto.sessionId := by
            intro heq
            rw [heq, habs] at hs
            cases hs
          rw [create_session_of_absent _ _ _ habs]
          refine ⟨s, ?_, hended⟩
          rw [dget_dset, if_neg hne]
          exact hs
    | send sid2 dto now aid ainow llm =>
        rw [send_message_sessions]
        exact ⟨s, hs, hended⟩
    | query =>
        exact ⟨s, hs, hended⟩
    | endSession sid2 now =>
        cases hd : dget st.sessions sid2 with
        | none =>
            rw [end_session_of_absent _ _ _ hd]
            exact ⟨s, hs, hended⟩
        | some s0 =>
            rw [end_session_of_present _ _ _ _ hd]
            by_cases he : id = sid2
            · subst he
              exact ⟨_, dget_dset_self _ _ _, rfl⟩
            · refine ⟨s, ?_, hended⟩
              rw [dget_dset, if_neg he]
              exact hs

/-- C8 witness: a concrete create, a concrete end, and the preservation
conjunct applied to a concrete `query` step on a store whose session is
already Ended. -/
theorem claim_C8_witness :
    (dget (⟨[], []⟩ : Store).sessions "s1" = none
      ∧ dget (create_session ⟨[], []⟩ sampleCreateDto "T0").2.sessions "s1"
          = some (mkSessionInfo sampleCreateDto "T0")
      ∧ (mkSessionInfo sampleCreateDto "T0").status = none
      ∧ (mkSessionInfo sampleCreateDto "T0").endTime = none)
    ∧ ((end_session ⟨[("s1", sampleSession)], [("s1", [])]⟩ "s1" "T9").1.success = true
      ∧ dget (end_session ⟨[("s1", sampleSession)], [("s1", [])]⟩ "s1" "T9").2.sessions "s1"
          = some ({ sampleSession with status := some "ended", endTime := some "T9" }))
    ∧ (∃ s2 : SessionInfo,
        dget (⟨[("s1", { sampleSession with status := some "ended", endTime := some "T9" })], [("s1", [])]⟩ : Store).sessions "s1"
          = some s2
        ∧ s2.status = some "ended") :=
  ⟨⟨rfl, (claim_C8_status_lifecycle.1 ⟨[], []⟩ sampleCreateDto "T0" rfl).1,
    rfl, rfl⟩,
   claim_C8_status_lifecycle.2.1 ⟨[("s1", sampleSession)], [("s1", [])]⟩
     "s1" "T9" sampleSession rfl,
   claim_C8_status_lifecycle.2.2
     ⟨[("s1", { sampleSession with status := some "ended", endTime := some "T9" })], [("s1", [])]⟩
     ⟨[("s1", { sampleSession with status := some "ended", endTime := some "T9" })], [("s1", [])]⟩
     (Step.query _) "s1"
     ({ sampleSession with status := some "ended", endTime := some "T9" })
     rfl rfl⟩

/-- Each of the four operations preserves agreement of the key sets of
the `sessions` and `messages` dicts. -/
theorem keysAgree_step (st st2 : Store) (hstep : Step st st2)
    (ih : keysAgree st) : keysAgree st2 := by
  cases hstep with
  | create dto now =>
      by_cases hp : (dget st.sessions dto.sessionId).isSome
      · rw [create_session_of_present _ _ _ hp]
        exact ih
      · have habs : dget st.sessions dto.sessionId = none :=
          Option.not_isSome_iff_eq_none.mp hp
        rw [create_session_of_absent _ _ _ habs]
        intro k
        by_cases hk : k = dto.sessionId
        · subst hk
          simp [dget_dset]
        · rw [show (dget (dset st.sessions dto.sessionId (mkSessionInfo dto now)) k) = dget st.sessions k from by rw [dget_dset, if_neg hk]]
          rw [show (dget (dset st.messages dto.sessionId []) k) = dget st.messages k from by rw [dget_dset, if_neg hk]]
          exact ih k
  | send sid dto now aid ainow llm =>
      intro k
      rw [send_message_sessions]
      rw [show ((dget (send_message st sid dto now aid ainow llm).2.messages k).isSome = (dget st.messages k).isSome) from send_message_messages_isSome st sid dto now aid ainow llm k]
      exact ih k
  | query =>
      exact ih
  | endSession sid now =>
      intro k
      rw [end_session_sessions_isSome, end_session_messages]
      exact ih k

/-- C9: in every store reachable by any sequence of the four operations
from the empty initial state, a session id is a key of the `sessions`
dict exactly when it is a key of the `messages` dict, so the existence
check of `query_messages` (against `messages`) and that of
`send_message` (against `sessions`) agree. -/
theorem claim_C9_keys_agree (st : Store) (h : Reachable st) : keysAgree st := by
  induction h with
  | init =>
      intro k
      simp [dget]
  | step hr hstep ih =>
      exact keysAgree_step _ _ hstep ih

/-- C9 witness: the invariant at the reachable store obtained by one
concrete `create` step from the initial state. -/
theorem claim_C9_witness :
    Reachable (create_session ⟨[], []⟩ sampleCreateDto "T0").2
    ∧ keysAgree (create_session ⟨[], []⟩ sampleCreateDto "T0").2 :=
  ⟨Reachable.step Reachable.init (Step.create ⟨[], []⟩ sampleCreateDto "T0"),
   claim_C9_keys_agree _
     (Reachable.step Reachable.init (Step.create ⟨[], []⟩ sampleCreateDto "T0"))⟩

/-- C5: for an existing log, `pageNum ≥ 1` and `pageSize` in `[1,100]`,
`query_messages` reports `total` as the length of the filtered view and
returns exactly the slice
`[(pageNum-1)*pageSize, (pageNum-1)*pageSize + pageSize)` of it (as
`drop`/`take`); when the slice starts at or beyond the end of the
filtered view the records are empty while `total` still reports the full
filtered length. -/
theorem claim_C5_pagination (st : Store) (sid : String) (log : List Message)
    (startId : Option String) (pageNum pageSize : Int)
    (hm : dget st.messages sid = some log)
    (h1 : 1 ≤ pageNum) (h2 : 1 ≤ pageSize) (h3 : pageSize ≤ 100) :
    query_messages st sid startId pageNum pageSize
      = { success := true, message := "查询成功",
          data := some (.page (filterStart (sessionView log) startId).length
            pageSize pageNum
            ((((filterStart (sessionView log) startId).drop
                ((pageNum - 1) * pageSize).toNat).take pageSize.toNat).map
              stripSender)),
          statusCode := 200 }
    ∧ ((filterStart (sessionView log) startId).length
          ≤ ((pageNum - 1) * pageSize).toNat →
        (((filterStart (sessionView log) startId).drop
            ((pageNum - 1) * pageSize).toNat).take pageSize.toNat) = []) := by
  have ha : (0 : Int) ≤ (pageNum - 1) * pageSize :=
    mul_nonneg (by omega) (by omega)
  constructor
  · unfold query_messages
    simp only [hm]
    rw [pySlice_of_nonneg _ _ _ ha (by omega)]
  · intro hlen
    rw [List.drop_eq_nil_of_le hlen]
    exact List.take_nil

/-- C5 witness: page 1 of size 2 on a concrete one-message log. -/
theorem claim_C5_witness :
    dget (⟨[("s1", sampleSession)],
            [("s1", [mkUserMessage sampleSendDto "T1"])]⟩ : Store).messages "s1"
        = some [mkUserMessage sampleSendDto "T1"]
    ∧ (1 : Int) ≤ 1 ∧ (1 : Int) ≤ 2 ∧ (2 : Int) ≤ 100
    ∧ query_messages ⟨[("s1", sampleSession)],
          [("s1", [mkUserMessage sampleSendDto "T1"])]⟩ "s1" none 1 2
        = { success := true, message := "查询成功",
            data := some (.page
              (filterStart (sessionView [mkUserMessage sampleSendDto "T1"]) none).length
              2 1
              ((((filterStart (sessionView [mkUserMessage sampleSendDto "T1"]) none).drop
                  (((1 : Int) - 1) * 2).toNat).take (2 : Int).toNat).map stripSender)),
            statusCode := 200 } :=
  ⟨rfl, by decide, by decide, by decide,
   (claim_C5_pagination ⟨[("s1", sampleSession)],
       [("s1", [mkUserMessage sampleSendDto "T1"])]⟩ "s1"
       [mkUserMessage sampleSendDto "T1"] none 1 2 rfl (by decide) (by decide)
       (by decide)).1⟩

/-- C1 counterexample: `send_message` performs no duplicate-id check.
Against a log that already holds a message with id `m1`, sending another
message with id `m1` succeeds (no `DuplicateMessageId` failure) and the
log afterwards holds two messages with that id, not one. -/
theorem claim_C1_counterexample :
    countId [mkUserMessage sampleSendDto "T0"] "m1" = 1
    ∧ (send_message ⟨[("s1", sampleSession)], [("s1", [mkUserMessage sampleSendDto "T0"])]⟩
        "s1" sampleSendDto "T1" "ai1" "T2" (.clientError "down")).1.success = true
    ∧ (dget (send_message ⟨[("s1", sampleSession)], [("s1", [mkUserMessage sampleSendDto "T0"])]⟩
        "s1" sampleSendDto "T1" "ai1" "T2" (.clientError "down")).2.messages "s1").map
          (fun l => countId l "m1") = some 2 :=
  ⟨rfl, rfl, rfl⟩

/-- C1 corrected: for an existing session and log, the user message is
always inserted at the tail even when its id already occurs in the log;
the append never fails and the log afterwards retains at least two
messages with that id. -/
theorem claim_C1_amended (st : Store) (sid : String) (dto : SendMessageDTO)
    (now aid ainow : String) (llm : LlmOutcome) (s : SessionInfo)
    (log : List Message)
    (hid : dto.sessionId = sid) (hs : dget st.sessions sid = some s)
    (hm : dget st.messages sid = some log)
    (hdup : 1 ≤ countId log dto.messageId) :
    ∃ tail : List Message,
      dget (send_message st sid dto now aid ainow llm).2.messages sid
        = some (log ++ mkUserMessage dto now :: tail)
      ∧ 2 ≤ countId (log ++ mkUserMessage dto now :: tail) dto.messageId := by
  cases hr : relayContent llm with
  | ok c =>
      refine ⟨[mkAiMessage sid aid ainow c], ?_, ?_⟩
      · rw [send_message_of_ok st sid dto now aid ainow llm s log c hid hs hm hr]
        show dget (dset (dset st.messages sid _) sid _) sid = _
        rw [dget_dset_self]
        simp
      · rw [countId_append, countId_cons_self dto.messageId _ _ rfl]
        omega
  | error e =>
      refine ⟨[], ?_, ?_⟩
      · rw [send_message_of_error st sid dto now aid ainow llm s log e hid hs hm hr]
        show dget (dset st.messages sid _) sid = _
        rw [dget_dset_self]
      · rw [countId_append, countId_cons_self dto.messageId _ _ rfl]
        omega

/-- C1 witness: the amended statement at the concrete duplicate send of
the counterexample. -/
theorem claim_C1_witness :
    sampleSendDto.sessionId = "s1"
    ∧ 1 ≤ countId [mkUserMessage sampleSendDto "T0"] sampleSendDto.messageId
    ∧ ∃ tail : List Message,
        dget (send_message ⟨[("s1", sampleSession)], [("s1", [mkUserMessage sampleSendDto "T0"])]⟩
            "s1" sampleSendDto "T1" "ai1" "T2" (.clientError "down")).2.messages "s1"
          = some ([mkUserMessage sampleSendDto "T0"] ++ mkUserMessage sampleSendDto "T1" :: tail)
        ∧ 2 ≤ countId ([mkUserMessage sampleSendDto "T0"] ++ mkUserMessage sampleSendDto "T1" :: tail)
              sampleSendDto.messageId :=
  ⟨rfl, by decide,
   claim_C1_amended ⟨[("s1", sampleSession)], [("s1", [mkUserMessage sampleSendDto "T0"])]⟩
     "s1" sampleSendDto "T1" "ai1" "T2" (.clientError "down") sampleSession
     [mkUserMessage sampleSendDto "T0"] rfl rfl rfl (by decide)⟩

/-- A message with id `mA`, used to exhibit the tie-breaking order of the
sorted view. -/
def tieA : Message := ⟨"mA", "s1", 0, .str "a", "t1", "user"⟩

/-- A message with id `mB` and the same `sendTime` as `tieA`, appended
after it. -/
def tieB : Message := ⟨"mB", "s1", 0, .str "b", "t1", "user"⟩

/-- C2 counterexample: on a log of two messages with equal `sendTime`,
the view produced by the stable `reverse=True` sort keeps the earlier
appended message first; it does not put the most recently appended one
first, as the claim's descending tie-break would require (the view would
then be `[tieB, tieA]`). -/
theorem claim_C2_counterexample :
    sessionView [tieA, tieB] = [tieA, tieB]
    ∧ tieA.sendTime = tieB.sendTime
    ∧ tieA.messageId ≠ tieB.messageId
    ∧ sessionView [tieA, tieB] ≠ [tieB, tieA] := by
  have hview : sessionView [tieA, tieB] = [tieA, tieB] := by
    simp [sessionView, insertDesc, tieA, tieB]
  refine ⟨hview, rfl, by decide, ?_⟩
  intro h
  rw [hview] at h
  have h1 : tieA = tieB := by
    have h2 := congrArg List.head? h
    simpa using h2
  have h3 : tieA.messageId = tieB.messageId := congrArg Message.messageId h1
  exact absurd h3 (by decide)

/-- C2 corrected: the view `query_messages` paginates over is the log
sorted by `sendTime` descending with ties broken by physical insertion
order ascending — among messages with equal `sendTime` the earliest
appended comes first (the sort is stable), as witnessed by the
per-timestamp filter being exactly the log's own order. -/
theorem claim_C2_amended (log : List Message) :
    (sessionView log).Pairwise (fun a b => b.sendTime ≤ a.sendTime)
    ∧ ∀ t : String,
        (sessionView log).filter (fun m => m.sendTime == t)
          = log.filter (fun m => m.sendTime == t) :=
  ⟨pairwise_sessionView log, fun t => filter_sessionView log t⟩

/-- C3 counterexample: an upstream body that is well-formed JSON but has
an empty `choices` array makes the extraction raise `IndexError`, which
the inner handler does not catch (it catches only `aiohttp.ClientError`,
`KeyError` and `json.JSONDecodeError`); the outer handler then returns a
400 failure envelope, no AI message is appended, and the already appended
user message stays — so `send_message` does surface a hard error and does
not yield an AI message. -/
theorem claim_C3_counterexample :
    relayContent (.ok (.obj [("choices", .arr [])]))
      = .error .indexError
    ∧ (send_message ⟨[("s1", sampleSession)], [("s1", [])]⟩ "s1" sampleSendDto
        "T1" "ai1" "T2" (.ok (.obj [("choices", .arr [])]))).1.success = false
    ∧ (send_message ⟨[("s1", sampleSession)], [("s1", [])]⟩ "s1" sampleSendDto
        "T1" "ai1" "T2" (.ok (.obj [("choices", .arr [])]))).1.statusCode = 400
    ∧ (dget (send_message ⟨[("s1", sampleSession)], [("s1", [])]⟩ "s1" sampleSendDto
        "T1" "ai1" "T2" (.ok (.obj [("choices", .arr [])]))).2.messages "s1").map
          (fun l => l.map Message.sender) = some ["user"] :=
  ⟨rfl, rfl, rfl, rfl⟩

/-- C3 corrected: whenever the inner relay handler yields reply content —
upstream transport failure (`aiohttp.ClientError`, turned into the
"service unavailable" fallback), a JSON decode failure (turned into the
"parse error" fallback), a missing key (`KeyError`, same fallback), or a
successful extraction of `choices[0].message.content` — `send_message`
appends both messages and returns a well-formed AI message carrying that
content; but unexpected shapes whose extraction raises an exception
outside `(KeyError, JSONDecodeError)`, such as an empty `choices` array,
escape to the outer handler (see the counterexample). -/
theorem claim_C3_amended :
    (∀ e : String, relayContent (.clientError e)
        = .ok (.str ("抱歉，AI服务暂时不可用。错误信息: " ++ e)))
    ∧ (∀ e : String, relayContent (.decodeError e)
        = .ok (.str ("抱歉，AI响应解析错误。错误信息: " ++ e)))
    ∧ (∀ (body v : Json), extractContent body = .ok v →
        relayContent (.ok body) = .ok v)
    ∧ (∀ (st : Store) (sid : String) (dto : SendMessageDTO)
         (now aid ainow : String) (llm : LlmOutcome) (c : Json)
         (s : SessionInfo) (log : List Message),
        dto.sessionId = sid → dget st.sessions sid = some s →
        dget st.messages sid = some log → relayContent llm = .ok c →
        (send_message st sid dto now aid ainow llm).1
          = { success := true, message := "消息处理成功",
              data := some (.send dto.messageId (mkAiMessage sid aid ainow c)),
              statusCode := 200 }
        ∧ dget (send_message st sid dto now aid ainow llm).2.messages sid
            = some (log ++ [mkUserMessage dto now, mkAiMessage sid aid ainow c])) := by
  refine ⟨fun e => rfl, fun e => rfl, ?_, ?_⟩
  · intro body v h
    simp [relayContent, h]
  · intro st sid dto now aid ainow llm c s log hid hs hm hr
    rw [send_message_of_ok st sid dto now aid ainow llm s log c hid hs hm hr]
    refine ⟨rfl, ?_⟩
    show dget (dset (dset st.messages sid _) sid _) sid = _
    rw [dget_dset_self]
    simp

/-- C3 witness: the amended statement at a concrete transport failure,
yielding the fallback AI message. -/
theorem claim_C3_witness :
    relayContent (.clientError "conn refused")
      = .ok (.str ("抱歉，AI服务暂时不可用。错误信息: " ++ "conn refused"))
    ∧ ((send_message ⟨[("s1", sampleSession)], [("s1", [])]⟩ "s1" sampleSendDto
          "T1" "ai1" "T2" (.clientError "conn refused")).1
        = { success := true, message := "消息处理成功",
            data := some (.send "m1" (mkAiMessage "s1" "ai1" "T2"
              (.str ("抱歉，AI服务暂时不可用。错误信息: " ++ "conn refused")))),
            statusCode := 200 }
      ∧ dget (send_message ⟨[("s1", sampleSession)], [("s1", [])]⟩ "s1" sampleSendDto
            "T1" "ai1" "T2" (.clientError "conn refused")).2.messages "s1"
          = some ([] ++ [mkUserMessage sampleSendDto "T1",
              mkAiMessage "s1" "ai1" "T2"
                (.str ("抱歉，AI服务暂时不可用。错误信息: " ++ "conn refused"))])) :=
  ⟨rfl,
   claim_C3_amended.2.2.2 ⟨[("s1", sampleSession)], [("s1", [])]⟩ "s1"
     sampleSendDto "T1" "ai1" "T2" (.clientError "conn refused")
     (.str ("抱歉，AI服务暂时不可用。错误信息: " ++ "conn refused"))
     sampleSession [] rfl rfl rfl rfl⟩

/-- A message whose id is the empty string (the pydantic validator allows
it: `messageId` is only required to be a string). -/
def emptyIdMsg : Message := ⟨"", "s1", 0, .str "x", "t1", "user"⟩

/-- C4 counterexample: `startMessageId = ""` is supplied and names the
message with the empty id present in the view, yet Python's
`if startMessageId:` treats the empty string as absent, so nothing is
dropped: the named message itself is still returned and `total` counts
it, where the claim requires records strictly after it (i.e. none). -/
theorem claim_C4_counterexample :
    emptyIdMsg.messageId = ""
    ∧ sessionView [emptyIdMsg] = [emptyIdMsg]
    ∧ query_messages ⟨[("s1", sampleSession)], [("s1", [emptyIdMsg])]⟩ "s1"
        (some "") 1 10
        = { success := true, message := "查询成功",
            data := some (.page 1 10 1 [stripSender emptyIdMsg]),
            statusCode := 200 } :=
  ⟨rfl, rfl, rfl⟩

/-- C4 corrected: the cursor filter of `query_messages` behaves as the
claim states for a non-empty `startMessageId` — found: keep exactly the
elements strictly after its first occurrence in the view; not found: use
the view unfiltered with no error — but a supplied empty-string
`startMessageId` is treated like an absent one (Python truthiness) and
never filters, even when a message with the empty id is in the view. -/
theorem claim_C4_amended (view : List Message) (s : String) :
    filterStart view none = view
    ∧ filterStart view (some "") = view
    ∧ (s ≠ "" → view.findIdx? (fun m => m.messageId == s) = none →
        filterStart view (some s) = view)
    ∧ (∀ i : Nat, s ≠ "" →
        view.findIdx? (fun m => m.messageId == s) = some i →
        filterStart view (some s) = view.drop (i + 1)) := by
  refine ⟨rfl, rfl, ?_, ?_⟩
  · intro hne hf
    simp [filterStart, hne, hf]
  · intro i hne hf
    simp [filterStart, hne, hf]

/-- C4 witness: a found non-empty cursor on a one-element view drops
through that element. -/
theorem claim_C4_witness :
    ("m1" : String) ≠ ""
    ∧ [mkUserMessage sampleSendDto "T1"].findIdx?
        (fun m => m.messageId == "m1") = some 0
    ∧ filterStart [mkUserMessage sampleSendDto "T1"] (some "m1")
        = [mkUserMessage sampleSendDto "T1"].drop 1 :=
  ⟨by decide, rfl,
   (claim_C4_amended [mkUserMessage sampleSendDto "T1"] "m1").2.2.2 0
     (by decide) rfl⟩
